import Mathlib

/-!
Verification of the WorldSurveyor waypoint/group protocol of agent-adventures.

The repository ships the MCP client layer
(`src/docker/mcp-servers/worldsurveyor/src/mcp_agent_worldsurveyor.py`):
handlers that validate tool arguments, forward one HTTP request to the
WorldSurveyor extension, and format the JSON reply as text.  The store engine
behind the HTTP API is not part of the repository; where a property depends on
it, the store is modelled from the specification (such definitions carry a
doc comment starting with "Modelled from the spec:").

Handlers are embedded as total functions from their parsed arguments and the
outcome of the single HTTP interaction to a `HandlerRun`: either the handler
replied locally without issuing the request, or it issued the request with a
given payload and produced a reply from the collaborator outcome.  Python
`dict.get` reads are embedded as `Option` fields, Python string/list
truthiness as explicit emptiness tests, and JSON numbers as rationals (no
arithmetic is ever performed on them by this code).
-/

namespace AgentAdventures

/-- JSON numbers as they appear in waypoint positions and targets. -/
abbrev Coord := Rat

/-- Python truthiness of an optional string (`if not s:` fires on `None` and `""`). -/
def pyTruthyStr : Option String → Bool
  | none => false
  | some s => !s.isEmpty

/-- Python `str.title()` on a list of characters: upper-case the first letter of
every alphabetic run, lower-case the rest. -/
def pyTitleAux : List Char → Bool → List Char
  | [], _ => []
  | c :: cs, startWord =>
    if c.isAlpha then
      (if startWord then c.toUpper else c.toLower) :: pyTitleAux cs false
    else
      c :: pyTitleAux cs true

/-- Python `str.title()`. -/
def pyTitle (s : String) : String := String.mk (pyTitleAux s.toList true)

/-- Python `str.replace("_", " ")` on waypoint type names. -/
def underscoresToSpaces (s : String) : String :=
  String.mk (s.toList.map (fun c => if c = '_' then ' ' else c))

/-- Rendering of a JSON number with two decimal places (Python `f"{x:.2f}"`,
rounding to the nearest hundredth). -/
def fmt2 (q : Rat) : String :=
  let sign := if q < 0 then "-" else ""
  let scaled : Int := (|q| * 100 + 1 / 2).floor
  let ip := scaled / 100
  let fp := scaled % 100
  sign ++ toString ip ++ "." ++ (if fp < 10 then "0" else "") ++ toString fp

/-- String-keyed metadata map attached to a waypoint. -/
abbrev Metadata := List (String × String)

/-- The fields of the parsed JSON reply that the embedded handlers read
(`result.get(...)` calls in the client). -/
structure ApiResult where
  success : Bool
  error : Option String := none
  message : Option String := none
  waypoint_id : Option String := none
  group_id : Option String := none
  cleared_count : Option Nat := none
  added_to_groups : Option Nat := none
  removed_from_groups : Option Nat := none
  imported_waypoints : Option Nat := none
  imported_groups : Option Nat := none
  errors : Option Nat := none
deriving DecidableEq

/-- Outcome of the handler's single HTTP interaction: a parsed JSON result, an
`aiohttp.ClientError`, or any other exception raised by the call. -/
inductive HttpOutcome where
  | result (r : ApiResult)
  | clientErr (msg : String)
  | exn (msg : String)
deriving DecidableEq

/-- A handler run: either the handler returned a reply before issuing the HTTP
request, or it issued the request with the given payload and replied. -/
inductive HandlerRun (π : Type) where
  | noRequest (reply : String)
  | requested (payload : π) (reply : String)
deriving DecidableEq

/-- The exceptions a handler body can raise: `aiohttp.ClientError` or any
other `Exception`; `str` gives Python's `str(e)`. -/
inductive PyExn where
  | clientError (msg : String)
  | other (msg : String)
deriving DecidableEq

/-- `str(e)` for an embedded exception. -/
def PyExn.str : PyExn → String
  | .clientError m => m
  | .other m => m

/-- Python list indexing, raising `IndexError` past the end. -/
def pyIndex (xs : List Coord) (i : Nat) : Except PyExn Coord :=
  match xs.get? i with
  | some v => .ok v
  | none => .error (.other "list index out of range")

/-! ## Client handlers

Each definition below embeds one handler of `WorldSurveyorMCP` (or one FastMCP
tool wrapper) from
`src/docker/mcp-servers/worldsurveyor/src/mcp_agent_worldsurveyor.py`.
-/

/-- Arguments read by `_clear_all_waypoints` (`args.get("confirm", False)`). -/
structure ClearAllArgs where
  confirm : Option Bool
deriving DecidableEq

/-- Payload of `POST /waypoints/clear`. -/
structure ClearPayload where
  confirm : Bool
deriving DecidableEq

/-- The local reply of `_clear_all_waypoints` when the confirm flag is absent. -/
def confirmationRequiredMsg : String :=
  "⚠️ **Confirmation Required**\n\n" ++
  "This operation will permanently delete ALL waypoints from the scene.\n" ++
  "To proceed, call this tool with `confirm: true`.\n\n" ++
  "This action cannot be undone!"

/-- Success reply of `_clear_all_waypoints`. -/
def clearedMsg (cleared_count : Nat) : String :=
  "🧹 **All Waypoints Cleared Successfully**\n\n" ++
  "• **Waypoints Removed:** " ++ toString cleared_count ++ "\n" ++
  "• **Scene Status:** Clean slate ready for new waypoints\n" ++
  "• **Markers:** All visual markers removed from 3D scene\n\n" ++
  "✨ The scene is now ready for fresh spatial planning!"

/-- `WorldSurveyorMCP._clear_all_waypoints` (lines 330-362): without
`confirm` it replies locally and issues no request; with it, it posts
`\x7b"confirm": True\x7d` and formats the outcome. -/
def clearAllWaypoints (args : ClearAllArgs) (http : HttpOutcome) :
    HandlerRun ClearPayload :=
  let confirm := args.confirm.getD false
  if !confirm then
    .noRequest confirmationRequiredMsg
  else
    .requested ⟨true⟩ (match http with
      | .result r =>
        if r.success then clearedMsg (r.cleared_count.getD 0)
        else "❌ Failed to clear waypoints: " ++ r.error.getD "Unknown error"
      | .clientErr m => "❌ Error clearing waypoints: " ++ m
      | .exn m => "❌ Error clearing waypoints: " ++ m)

/-- Arguments read by `_remove_group`; the handler reads no confirmation flag. -/
structure RemoveGroupArgs where
  group_id : Option String
  cascade : Option Bool
deriving DecidableEq

/-- Payload of `POST /groups/remove`. -/
structure RemoveGroupPayload where
  group_id : String
  cascade : Bool
deriving DecidableEq

/-- Success reply of `_remove_group`. -/
def removeGroupSuccessMsg (gid : String) (cascade : Bool) (message : String) :
    String :=
  let cascadeText := if cascade then " and all child groups" else ""
  "🗑️ **Group Removed Successfully**\n\n" ++
  "• **Group ID:** " ++ gid ++ "\n" ++
  "• **Cascade:** " ++ (if cascade then "Yes" else "No") ++ cascadeText ++ "\n" ++
  "• **Status:** " ++ message ++ "\n" ++
  "• **Waypoints:** Unassigned from removed group(s)"

/-- `WorldSurveyorMCP._remove_group` (lines 700-731): requires a truthy
`group_id`, defaults `cascade` to `False`, and posts the removal request —
no confirmation flag is consulted. -/
def removeGroup (args : RemoveGroupArgs) (http : HttpOutcome) :
    HandlerRun RemoveGroupPayload :=
  if !(pyTruthyStr args.group_id) then
    .noRequest "❌ Error: Group ID is required"
  else
    let gid := args.group_id.getD ""
    let cascade := args.cascade.getD false
    .requested ⟨gid, cascade⟩ (match http with
      | .result r =>
        if r.success then
          removeGroupSuccessMsg gid cascade
            (r.message.getD "Group removed from organization")
        else "❌ Failed to remove group: " ++ r.error.getD "Unknown error"
      | .clientErr m => "❌ Error removing group: " ++ m
      | .exn m => "❌ Error removing group: " ++ m)

/-- The argument dictionary `_create_waypoint` posts as the request body. -/
structure CreateWaypointArgs where
  position : Option (List Coord)
  waypoint_type : Option String
  name : Option String
  target : Option (List Coord)
  metadata : Option Metadata
deriving DecidableEq

/-- Success reply of `_create_waypoint`; indexing `position[0..2]` can raise,
so the result lives in the exception monad. -/
def createWaypointMsg (args : CreateWaypointArgs) (r : ApiResult) :
    Except PyExn String := do
  let waypoint_id := r.waypoint_id.getD "unknown"
  let position := args.position.getD [0, 0, 0]
  let waypoint_type := args.waypoint_type.getD "point_of_interest"
  let name := args.name.getD "Auto-generated"
  let p0 ← pyIndex position 0
  let p1 ← pyIndex position 1
  let p2 ← pyIndex position 2
  pure ("📍 **Waypoint Created Successfully!**\n\n" ++
    "• **ID:** " ++ waypoint_id ++ "\n" ++
    "• **Name:** " ++ name ++ "\n" ++
    "• **Type:** " ++ pyTitle (underscoresToSpaces waypoint_type) ++ "\n" ++
    "• **Position:** [" ++ fmt2 p0 ++ ", " ++ fmt2 p1 ++ ", " ++ fmt2 p2 ++ "]\n" ++
    "• **Status:** " ++ r.message.getD "Ready for use")

/-- Body of `_create_waypoint` inside its `try` block: post `args`, then
format; collaborator failures surface as raised exceptions. -/
def createWaypointBody (args : CreateWaypointArgs) (http : HttpOutcome) :
    Except PyExn (HandlerRun CreateWaypointArgs) :=
  match http with
  | .result r =>
    if r.success then do
      let msg ← createWaypointMsg args r
      pure (.requested args msg)
    else
      pure (.requested args
        ("❌ Failed to create waypoint: " ++ r.error.getD "Unknown error"))
  | .clientErr m => .error (.clientError m)
  | .exn m => .error (.other m)

/-- `WorldSurveyorMCP._create_waypoint` (lines 105-129): the `try`/`except`
wrapping of `createWaypointBody` — every exception becomes an in-band reply
string. -/
def createWaypoint (args : CreateWaypointArgs) (http : HttpOutcome) :
    HandlerRun CreateWaypointArgs :=
  match createWaypointBody args http with
  | .ok run => run
  | .error (.clientError m) => .requested args ("❌ Connection error: " ++ m)
  | .error (.other m) => .requested args ("❌ Error creating waypoint: " ++ m)

/-- A waypoint record as it appears in export/import documents and in the
modelled store. -/
structure Waypoint where
  id : String
  position : List Coord
  target : List Coord
  waypoint_type : String
  name : String
  metadata : Metadata
  created_at : String
deriving DecidableEq

/-- A group record as it appears in export/import documents and in the
modelled store. -/
structure Group where
  id : String
  name : String
  description : String
  color : String
  parent_group_id : Option String
  created_at : String
deriving DecidableEq

/-- The JSON document produced by export and consumed by import:
waypoints, optionally groups, and a timestamp. -/
structure ExportDocument where
  waypoints : List Waypoint
  groups : Option (List Group)
  exported_at : String
deriving DecidableEq

/-- Arguments read by `_import_waypoints`. -/
structure ImportArgs where
  import_data : Option ExportDocument
  merge_mode : Option String
deriving DecidableEq

/-- Payload of `POST /waypoints/import`. -/
structure ImportPayload where
  import_data : ExportDocument
  merge_mode : String
deriving DecidableEq

/-- Success reply of `_import_waypoints`. -/
def importSuccessMsg (merge_mode : String) (r : ApiResult) : String :=
  let imported_waypoints := r.imported_waypoints.getD 0
  let imported_groups := r.imported_groups.getD 0
  let errors := r.errors.getD 0
  let errorText :=
    if 0 < errors then "\n• **Errors:** " ++ toString errors else ""
  "📥 **Import Complete**\n\n" ++
  "• **Mode:** " ++ pyTitle merge_mode ++ "\n" ++
  "• **Waypoints Imported:** " ++ toString imported_waypoints ++ "\n" ++
  "• **Groups Imported:** " ++ toString imported_groups ++ errorText ++ "\n" ++
  "• **Status:** " ++ r.message.getD "Import successful" ++ "\n\n" ++
  "🔄 Waypoint markers have been refreshed to reflect imported data."

/-- `WorldSurveyorMCP._import_waypoints` (lines 938-975): requires a truthy
document, defaults `merge_mode` to `"replace"`, posts, and formats every
outcome (its `except Exception` catches `aiohttp` errors too). -/
def importWaypoints (args : ImportArgs) (http : HttpOutcome) :
    HandlerRun ImportPayload :=
  match args.import_data with
  | none => .noRequest "❌ Error: Import data is required"
  | some d =>
    let merge_mode := args.merge_mode.getD "replace"
    .requested ⟨d, merge_mode⟩ (match http with
      | .result r =>
        if r.success then importSuccessMsg merge_mode r
        else "❌ Failed to import waypoints: " ++ r.error.getD "Unknown error"
      | .clientErr m => "❌ Error importing waypoints: " ++ m
      | .exn m => "❌ Error importing waypoints: " ++ m)

/-- Arguments read by `_add_waypoint_to_groups` and
`_remove_waypoint_from_groups`. -/
structure MembershipArgs where
  waypoint_id : Option String
  group_ids : Option (List String)
deriving DecidableEq

/-- Payload of `POST /groups/add_waypoint` and `POST /groups/remove_waypoint`. -/
structure MembershipPayload where
  waypoint_id : String
  group_ids : List String
deriving DecidableEq

/-- Success reply of `_add_waypoint_to_groups`. -/
def addToGroupsSuccessMsg (wid : String) (gids : List String)
    (added_count : Nat) (message : String) : String :=
  "📁➕ **Waypoint Added to Groups**\n\n" ++
  "• **Waypoint ID:** " ++ wid ++ "\n" ++
  "• **Groups Added:** " ++ toString added_count ++ "/" ++
    toString gids.length ++ "\n" ++
  "• **Group IDs:** " ++ String.intercalate ", " gids ++ "\n" ++
  "• **Status:** " ++ message

/-- `WorldSurveyorMCP._add_waypoint_to_groups` (lines 733-767): requires a
truthy `waypoint_id` and a non-empty `group_ids` before posting. -/
def addWaypointToGroups (args : MembershipArgs) (http : HttpOutcome) :
    HandlerRun MembershipPayload :=
  let group_ids := args.group_ids.getD []
  if !(pyTruthyStr args.waypoint_id) then
    .noRequest "❌ Error: Waypoint ID is required"
  else if group_ids.isEmpty then
    .noRequest "❌ Error: At least one group ID is required"
  else
    let wid := args.waypoint_id.getD ""
    .requested ⟨wid, group_ids⟩ (match http with
      | .result r =>
        if r.success then
          addToGroupsSuccessMsg wid group_ids (r.added_to_groups.getD 0)
            (r.message.getD "Waypoint organized into groups")
        else "❌ Failed to add waypoint to groups: " ++ r.error.getD "Unknown error"
      | .clientErr m => "❌ Error adding waypoint to groups: " ++ m
      | .exn m => "❌ Error adding waypoint to groups: " ++ m)

/-- Success reply of `_remove_waypoint_from_groups`. -/
def removeFromGroupsSuccessMsg (wid : String) (gids : List String)
    (removed_count : Nat) (message : String) : String :=
  "📁➖ **Waypoint Removed from Groups**\n\n" ++
  "• **Waypoint ID:** " ++ wid ++ "\n" ++
  "• **Groups Removed:** " ++ toString removed_count ++ "/" ++
    toString gids.length ++ "\n" ++
  "• **Group IDs:** " ++ String.intercalate ", " gids ++ "\n" ++
  "• **Status:** " ++ message

/-- `WorldSurveyorMCP._remove_waypoint_from_groups` (lines 769-803): the same
guards as the add handler, then `POST /groups/remove_waypoint`. -/
def removeWaypointFromGroups (args : MembershipArgs) (http : HttpOutcome) :
    HandlerRun MembershipPayload :=
  let group_ids := args.group_ids.getD []
  if !(pyTruthyStr args.waypoint_id) then
    .noRequest "❌ Error: Waypoint ID is required"
  else if group_ids.isEmpty then
    .noRequest "❌ Error: At least one group ID is required"
  else
    let wid := args.waypoint_id.getD ""
    .requested ⟨wid, group_ids⟩ (match http with
      | .result r =>
        if r.success then
          removeFromGroupsSuccessMsg wid group_ids
            (r.removed_from_groups.getD 0)
            (r.message.getD "Waypoint unassigned from groups")
        else "❌ Failed to remove waypoint from groups: " ++
          r.error.getD "Unknown error"
      | .clientErr m => "❌ Error removing waypoint from groups: " ++ m
      | .exn m => "❌ Error removing waypoint from groups: " ++ m)

/-- Arguments read by `_set_selective_markers_visible`. -/
structure SelectiveArgs where
  visible_waypoint_ids : Option (List String)
deriving DecidableEq

/-- Payload of `POST /markers/selective`. -/
structure SelectivePayload where
  visible_waypoint_ids : List String
deriving DecidableEq

/-- `WorldSurveyorMCP._set_selective_markers_visible` (lines 432-465): an
empty id list is rejected locally before any request is issued. -/
def setSelectiveMarkersVisible (args : SelectiveArgs) (http : HttpOutcome) :
    HandlerRun SelectivePayload :=
  let ids := args.visible_waypoint_ids.getD []
  if ids.isEmpty then
    .noRequest "❌ Error: at least one waypoint ID must be provided"
  else
    .requested ⟨ids⟩ (match http with
      | .result r =>
        if r.success then
          "🎯 **Selective Visibility Activated**\n\n" ++
          "• **Visible Waypoints:** " ++ toString ids.length ++ "\n" ++
          "• **Mode:** Selective visibility (all other waypoints hidden)\n" ++
          "• **Status:** " ++ r.message.getD "Selective mode activated"
        else "❌ Failed to set selective visibility: " ++
          r.error.getD "Unknown error"
      | .clientErr m => "❌ Error setting selective visibility: " ++ m
      | .exn m => "❌ Error setting selective visibility: " ++ m)

/-- Arguments read by `_create_group`; the whole dictionary is the payload. -/
structure CreateGroupArgs where
  name : Option String
  description : Option String
  color : Option String
  parent_group_id : Option String
deriving DecidableEq

/-- `WorldSurveyorMCP._create_group` (lines 531-564): a missing or empty
`name` is rejected locally before any request is issued. -/
def createGroup (args : CreateGroupArgs) (http : HttpOutcome) :
    HandlerRun CreateGroupArgs :=
  if !(pyTruthyStr args.name) then
    .noRequest "❌ Error: Group name is required"
  else
    .requested args (match http with
      | .result r =>
        if r.success then
          "📁 **Group Created Successfully!**\n\n" ++
          "• **Group ID:** " ++ r.group_id.getD "unknown" ++ "\n" ++
          "• **Name:** " ++ args.name.getD "" ++ "\n" ++
          "• **Status:** " ++ r.message.getD "Ready for waypoint organization"
        else "❌ Failed to create group: " ++ r.error.getD "Unknown error"
      | .clientErr m => "❌ Error creating group: " ++ m
      | .exn m => "❌ Error creating group: " ++ m)

/-- The caller-facing parameters of the FastMCP tool
`worldsurveyor_create_waypoint`; `none` models an omitted optional
parameter (Python signature defaults). -/
structure CreateWaypointToolInput where
  position : List Coord
  waypoint_type : Option String
  name : Option String
  target : Option (List Coord)
  metadata : Option Metadata
deriving DecidableEq

/-- Argument assembly of `worldsurveyor_create_waypoint` (lines 1049-1079):
`waypoint_type` defaults to `"point_of_interest"` at the signature and
`target` defaults to `[0.0, 0.0, 0.0]` in the body, then the dictionary is
handed to `_create_waypoint`. -/
def worldsurveyorCreateWaypointArgs (inp : CreateWaypointToolInput) :
    CreateWaypointArgs :=
  let waypoint_type := inp.waypoint_type.getD "point_of_interest"
  let target := inp.target.getD [0, 0, 0]
  { position := some inp.position
    waypoint_type := some waypoint_type
    name := inp.name
    target := some target
    metadata := inp.metadata }

/-! ## Modelled Spatial Annotation Store

The store engine behind the HTTP API is not part of the repository: the
definitions below are modelled from the specification (data model of its
section 3, component design of its section 4). -/

/-- The specification's error kinds (section 7). -/
inductive StoreError where
  | validationError
  | notFound (id : String)
  | conflictError
  | confirmationRequired
deriving DecidableEq

/-- Modelled from the spec: the store owns the waypoint table, the group tree
and the membership edge set (data model, section 3). -/
structure Store where
  waypoints : List Waypoint
  groups : List Group
  memberships : List (String × String)
deriving DecidableEq

/-- The freshly cleared store. -/
def Store.empty : Store := ⟨[], [], []⟩

/-- Whether a waypoint id exists in the table. -/
def Store.hasWaypoint (s : Store) (id : String) : Bool :=
  s.waypoints.any (fun w => w.id == id)

/-- Whether a group id exists in the tree. -/
def Store.hasGroup (s : Store) (id : String) : Bool :=
  s.groups.any (fun g => g.id == id)

/-- The fixed waypoint type enumeration (section 3). -/
def waypointTypes : List String :=
  ["camera_position", "directional_lighting", "object_anchor",
   "point_of_interest", "selection_mark", "lighting_position",
   "audio_source", "spawn_point"]

/-- Modelled from the spec: per-record import validation — a waypoint is valid
when its position has exactly 3 components and its type is in the
enumeration (sections 4.1 and 4.5). -/
def validWaypoint (w : Waypoint) : Bool :=
  w.position.length == 3 && waypointTypes.contains w.waypoint_type

/-- The ids of a flat group list. -/
def groupIds (gs : List Group) : List String := gs.map (fun g => g.id)

/-- Whether a group's parent pointer resolves (or is absent/root). -/
def parentOk (gs : List Group) (g : Group) : Bool :=
  match g.parent_group_id with
  | none => true
  | some p => (groupIds gs).contains p

/-- Fuelled walk up the parent chain; `true` when a root is reached within the
fuel, which witnesses cycle-freedom for that chain. -/
def ancestorChainOk (gs : List Group) : Nat → Option String → Bool
  | _, none => true
  | 0, some _ => false
  | n + 1, some p =>
    match gs.find? (fun g => g.id == p) with
    | none => true
    | some g => ancestorChainOk gs n g.parent_group_id

/-- Modelled from the spec: the parent relation forms a forest — every parent
resolves and no group is its own ancestor (section 3, group invariant). -/
def forestOk (gs : List Group) : Bool :=
  gs.all (fun g => parentOk gs g) &&
  gs.all (fun g => ancestorChainOk gs gs.length g.parent_group_id)

/-- A node of the `hierarchy()` forest: a group with its nested children. -/
inductive GroupNode where
  | mk (group : Group) (children : List GroupNode)

/-- Fuelled forest build: the children of `parent` from the flat list, each
carrying its own subtree (section 4.2, `hierarchy()`). -/
def buildNodes (gs : List Group) : Nat → Option String → List GroupNode
  | 0, _ => []
  | n + 1, parent =>
    (gs.filter (fun g => g.parent_group_id == parent)).map
      (fun g => GroupNode.mk g (buildNodes gs n (some g.id)))

/-- Modelled from the spec: `hierarchy()` builds the forest of group nodes
from the flat group list (section 4.2). -/
def Store.hierarchy (s : Store) : List GroupNode :=
  buildNodes s.groups s.groups.length none

/-- Modelled from the spec: `export(include_groups)` produces a full snapshot
`\x7bwaypoints, groups?, exported_at\x7d` of the store (section 4.5). -/
def Store.exportDoc (s : Store) (include_groups : Bool) (t : String) :
    ExportDocument :=
  { waypoints := s.waypoints
    groups := if include_groups then some s.groups else none
    exported_at := t }

/-- Modelled from the spec: `import(document, replace)` — full validation
first; on any invalid record the operation aborts with `ValidationError`
before the clear step; otherwise the store is cleared and every entity of the
document is recreated with its original id preserved (section 4.5). -/
def Store.importReplace (_s : Store) (doc : ExportDocument) :
    Except StoreError (Store × Nat × Nat) :=
  let gs := doc.groups.getD []
  if doc.waypoints.all validWaypoint && forestOk gs then
    .ok ({ waypoints := doc.waypoints, groups := gs, memberships := [] },
      doc.waypoints.length, gs.length)
  else
    .error .validationError

/-- The observable waypoint set of the round-trip property: ids, positions
and types. -/
def waypointSummary (s : Store) : List (String × List Coord × String) :=
  s.waypoints.map (fun w => (w.id, w.position, w.waypoint_type))

/-- Insertion into the duplicate-free membership edge set. -/
def insertEdge (ms : List (String × String)) (e : String × String) :
    List (String × String) :=
  if ms.contains e then ms else ms ++ [e]

/-- One step of the membership `add`: an existing group id gains the edge and
counts as a success, a missing one is skipped. -/
def addStep (wid : String) (acc : Store × Nat) (gid : String) : Store × Nat :=
  if acc.1.hasGroup gid then
    ({ acc.1 with memberships := insertEdge acc.1.memberships (wid, gid) },
      acc.2 + 1)
  else acc

/-- Modelled from the spec: Membership Index `add(waypoint_id, group_id[])` —
a missing waypoint is `NotFoundError`; otherwise each group id is processed
independently and the per-id success count is reported (section 4.3). -/
def Store.addWaypointToGroupsOp (s : Store) (wid : String)
    (gids : List String) : Except StoreError (Store × Nat) :=
  if s.hasWaypoint wid then .ok (gids.foldl (addStep wid) (s, 0))
  else .error (.notFound wid)

/-- One step of the membership `remove`: a present edge is dropped and counts
as a success, anything else is skipped. -/
def removeStep (wid : String) (acc : Store × Nat) (gid : String) :
    Store × Nat :=
  if acc.1.hasGroup gid && acc.1.memberships.contains (wid, gid) then
    ({ acc.1 with
        memberships := acc.1.memberships.filter (fun e => !(e == (wid, gid))) },
      acc.2 + 1)
  else acc

/-- Modelled from the spec: Membership Index `remove(waypoint_id, group_id[])`
— the mirror of `add`, per-id and independently (section 4.3). -/
def Store.removeWaypointFromGroupsOp (s : Store) (wid : String)
    (gids : List String) : Except StoreError (Store × Nat) :=
  if s.hasWaypoint wid then .ok (gids.foldl (removeStep wid) (s, 0))
  else .error (.notFound wid)

/-- Modelled from the spec: Group Tree `create` — an empty required name is
`ValidationError` (section 7), a non-null parent that does not resolve is
`NotFoundError` (section 4.2); otherwise the group is appended. -/
def Store.createGroupOp (s : Store) (gid name description color : String)
    (parent_group_id : Option String) (created_at : String) :
    Except StoreError (Store × String) :=
  if name = "" then .error .validationError
  else
    match parent_group_id with
    | none =>
      .ok ({ s with groups :=
        s.groups ++ [⟨gid, name, description, color, none, created_at⟩] }, gid)
    | some p =>
      if s.hasGroup p then
        .ok ({ s with groups :=
          s.groups ++ [⟨gid, name, description, color, some p, created_at⟩] },
          gid)
      else .error (.notFound p)

/-- The base modes of the Visibility Controller (section 4.4). -/
inductive VisMode where
  | allVisible
  | allHidden
  | selective (allow : List String)
deriving DecidableEq

/-- Modelled from the spec: Visibility Controller state — a base mode with a
per-id override map layered on it (section 4.4). -/
structure Visibility where
  mode : VisMode
  overrides : List (String × Bool)
deriving DecidableEq

/-- Modelled from the spec: `set_selective(ids[])` fails `ValidationError` on
an empty list and otherwise switches the mode to `selective` with exactly the
given set visible and all others implicitly hidden (section 4.4). -/
def Visibility.setSelective (_v : Visibility) (ids : List String) :
    Except StoreError Visibility :=
  if ids.isEmpty then .error .validationError
  else .ok { mode := .selective ids, overrides := [] }

/-- Modelled from the spec: `is_visible(id)` — override first, else the base
mode: allowlist membership in `selective`, the constant otherwise
(section 4.4). -/
def Visibility.isVisible (v : Visibility) (id : String) : Bool :=
  match v.overrides.find? (fun p => p.1 == id) with
  | some p => p.2
  | none =>
    match v.mode with
    | .allVisible => true
    | .allHidden => false
    | .selective allow => allow.contains id

/-- Whether the second character list is a prefix of the first. -/
def beginsWith : List Char → List Char → Bool
  | _, [] => true
  | [], _ :: _ => false
  | c :: cs, d :: ds => c == d && beginsWith cs ds

/-- Whether the needle occurs as a contiguous run inside the haystack. -/
def containsSeq : List Char → List Char → Bool
  | [], needle => needle.isEmpty
  | c :: cs, needle => beginsWith (c :: cs) needle || containsSeq cs needle

/-- Whether `needle` occurs as a substring of `hay`. -/
def mentions (hay needle : String) : Bool :=
  containsSeq hay.toList needle.toList

/-! ## Helper lemmas -/

/-- `_create_waypoint` issues its request on every collaborator outcome: the
argument dictionary is always posted and some reply string is produced. -/
theorem createWaypoint_requested (args : CreateWaypointArgs)
    (http : HttpOutcome) :
    ∃ reply, createWaypoint args http = .requested args reply := by
  cases http with
  | result r =>
    by_cases h : r.success = true
    · simp only [createWaypoint, createWaypointBody, h, if_true]
      cases hmsg : createWaypointMsg args r with
      | ok s => exact ⟨s, rfl⟩
      | error e =>
        cases e with
        | clientError m => exact ⟨_, rfl⟩
        | other m => exact ⟨_, rfl⟩
    · have h' : r.success = false := by
        cases hb : r.success
        · rfl
        · exact absurd hb h
      simp only [createWaypoint, createWaypointBody, h']
      exact ⟨_, rfl⟩
  | clientErr m => exact ⟨_, rfl⟩
  | exn m => exact ⟨_, rfl⟩

/-- A fold whose step increases the counter by at most one is bounded by the
list length. -/
theorem foldl_snd_le (step : Store × Nat → String → Store × Nat)
    (hstep : ∀ acc gid, (step acc gid).2 ≤ acc.2 + 1) :
    ∀ (gids : List String) (acc : Store × Nat),
      (gids.foldl step acc).2 ≤ acc.2 + gids.length := by
  intro gids
  induction gids with
  | nil => intro acc; simp
  | cons g gs ih =>
    intro acc
    have h1 := ih (step acc g)
    have h2 := hstep acc g
    simp only [List.foldl_cons, List.length_cons]
    omega

/-- One add step counts at most one success. -/
theorem addStep_le (wid : String) (acc : Store × Nat) (gid : String) :
    (addStep wid acc gid).2 ≤ acc.2 + 1 := by
  unfold addStep
  split <;> simp

/-- One remove step counts at most one success. -/
theorem removeStep_le (wid : String) (acc : Store × Nat) (gid : String) :
    (removeStep wid acc gid).2 ≤ acc.2 + 1 := by
  unfold removeStep
  split <;> simp

/-! ## Claims -/

/-- C1 (corrected): `_clear_all_waypoints` without the `confirm` flag replies
with the distinct Confirmation Required message and issues no request, so
nothing is deleted and the absence is never a silent no-op success; but
`_remove_group` consults no confirmation flag at all — whenever `group_id` is
truthy it issues the removal request with whatever `cascade` value was given. -/
theorem confirm_guard_clear_all_but_not_remove_group :
    (∀ (args : ClearAllArgs) (http : HttpOutcome),
      args.confirm.getD false = false →
        clearAllWaypoints args http = .noRequest confirmationRequiredMsg)
    ∧ (∀ (args : RemoveGroupArgs) (http : HttpOutcome),
        pyTruthyStr args.group_id = true →
          ∃ reply, removeGroup args http
            = .requested ⟨args.group_id.getD "", args.cascade.getD false⟩
                reply) := by
  constructor
  · intro args http h
    simp [clearAllWaypoints, h]
  · intro args http h
    unfold removeGroup
    rw [h]
    exact ⟨_, rfl⟩

/-- C1 witness: the clear handler without `confirm` replies locally; the
remove handler with `cascade = true` and no confirmation issues the request. -/
theorem confirm_guard_clear_all_but_not_remove_group_witness :
    clearAllWaypoints ⟨none⟩ (.result { success := true })
      = .noRequest confirmationRequiredMsg
    ∧ ∃ reply, removeGroup ⟨some "g1", some true⟩ (.result { success := true })
        = .requested ⟨"g1", true⟩ reply :=
  ⟨confirm_guard_clear_all_but_not_remove_group.1 ⟨none⟩
      (.result { success := true }) rfl,
   confirm_guard_clear_all_but_not_remove_group.2 ⟨some "g1", some true⟩
      (.result { success := true }) (by decide)⟩

/-- C1 counterexample: `remove_group` invoked with `cascade = true` and no
confirmation flag does not fail — on a success reply from the collaborator it
issues the removal request and reports success, which is not the
Confirmation Required failure the claim demands. -/
theorem remove_group_cascade_without_confirm_counterexample :
    removeGroup ⟨some "g1", some true⟩ (.result { success := true })
      = .requested ⟨"g1", true⟩
          (removeGroupSuccessMsg "g1" true "Group removed from organization")
    ∧ removeGroupSuccessMsg "g1" true "Group removed from organization"
      ≠ confirmationRequiredMsg := by
  exact ⟨rfl, by decide⟩

/-- C2: exporting a well-formed store with groups included and importing the
document with merge mode replace into a freshly cleared store reproduces an
identical hierarchy and an identical waypoint set (ids, positions, types). -/
theorem export_import_replace_round_trip (s : Store) (t : String)
    (hw : s.waypoints.all validWaypoint = true)
    (hg : forestOk s.groups = true) :
    ∃ s' nw ng,
      Store.importReplace Store.empty (s.exportDoc true t) = .ok (s', nw, ng)
      ∧ s'.hierarchy = s.hierarchy
      ∧ waypointSummary s' = waypointSummary s := by
  refine ⟨⟨s.waypoints, s.groups, []⟩, s.waypoints.length, s.groups.length,
    ?_, rfl, rfl⟩
  simp [Store.importReplace, Store.exportDoc, hw, hg]

/-- A small well-formed store: one waypoint, a root group and its child. -/
def roundTripSampleStore : Store :=
  { waypoints :=
      [⟨"w1", [1, 2, 3], [0, 0, 0], "point_of_interest", "A", [], "t0"⟩]
    groups :=
      [⟨"g1", "G1", "", "#4A90E2", none, "t0"⟩,
       ⟨"g2", "G2", "", "#4A90E2", some "g1", "t0"⟩]
    memberships := [("w1", "g2")] }

/-- C2 witness: the round trip on a concrete two-group, one-waypoint store. -/
theorem export_import_replace_round_trip_witness :
    roundTripSampleStore.waypoints.all validWaypoint = true
    ∧ forestOk roundTripSampleStore.groups = true
    ∧ ∃ s' nw ng,
        Store.importReplace Store.empty (roundTripSampleStore.exportDoc true "t1")
          = .ok (s', nw, ng)
        ∧ s'.hierarchy = roundTripSampleStore.hierarchy
        ∧ waypointSummary s' = waypointSummary roundTripSampleStore :=
  ⟨by decide, by decide,
   export_import_replace_round_trip roundTripSampleStore "t1"
     (by decide) (by decide)⟩

/-- C3 (corrected): the cited handlers are total — every collaborator
exception is converted into an in-band reply string, never propagated — but
the failure reply is a formatted string rather than a structured value and
does not always carry the operation name or offending field. -/
theorem handlers_convert_exceptions_to_reply_strings :
    (∀ (args : CreateWaypointArgs) (m : String),
      createWaypoint args (.clientErr m)
        = .requested args ("❌ Connection error: " ++ m)
      ∧ createWaypoint args (.exn m)
        = .requested args ("❌ Error creating waypoint: " ++ m))
    ∧ (∀ (d : ExportDocument) (mm : Option String) (m : String),
      importWaypoints ⟨some d, mm⟩ (.clientErr m)
        = .requested ⟨d, mm.getD "replace"⟩
            ("❌ Error importing waypoints: " ++ m)
      ∧ importWaypoints ⟨some d, mm⟩ (.exn m)
        = .requested ⟨d, mm.getD "replace"⟩
            ("❌ Error importing waypoints: " ++ m)) :=
  ⟨fun _ _ => ⟨rfl, rfl⟩, fun _ _ _ => ⟨rfl, rfl⟩⟩

/-- Concrete arguments for the C3 counterexample. -/
def connectionErrorSampleArgs : CreateWaypointArgs :=
  { position := some [1, 2, 3]
    waypoint_type := some "point_of_interest"
    name := none
    target := some [0, 0, 0]
    metadata := none }

/-- C3 counterexample: when the HTTP collaborator raises a client error, the
reply of `_create_waypoint` is the plain string `❌ Connection error: boom`,
which mentions neither the operation name nor any offending field or id —
refuting the claim that every failure carries them. -/
theorem connection_error_reply_lacks_operation_name :
    createWaypoint connectionErrorSampleArgs (.clientErr "boom")
      = .requested connectionErrorSampleArgs "❌ Connection error: boom"
    ∧ mentions "❌ Connection error: boom" "waypoint" = false
    ∧ mentions "❌ Connection error: boom" "create" = false
    ∧ mentions "❌ Connection error: boom" "position" = false := by
  exact ⟨rfl, by decide, by decide, by decide⟩

/-- C4: for an existing waypoint, the modelled membership add and remove
process each requested group id independently and return a non-error success
with a per-id count `k ≤ n`, even when some ids are missing. -/
theorem membership_ops_partial_success (s : Store) (wid : String)
    (gids : List String) (h : s.hasWaypoint wid = true) :
    (∃ s' k, s.addWaypointToGroupsOp wid gids = .ok (s', k)
      ∧ k ≤ gids.length)
    ∧ (∃ s' k, s.removeWaypointFromGroupsOp wid gids = .ok (s', k)
      ∧ k ≤ gids.length) := by
  constructor
  · refine ⟨(gids.foldl (addStep wid) (s, 0)).1,
      (gids.foldl (addStep wid) (s, 0)).2, ?_, ?_⟩
    · simp [Store.addWaypointToGroupsOp, h]
    · simpa using foldl_snd_le (addStep wid) (addStep_le wid) gids (s, 0)
  · refine ⟨(gids.foldl (removeStep wid) (s, 0)).1,
      (gids.foldl (removeStep wid) (s, 0)).2, ?_, ?_⟩
    · simp [Store.removeWaypointFromGroupsOp, h]
    · simpa using foldl_snd_le (removeStep wid) (removeStep_le wid) gids (s, 0)

/-- A store with one waypoint and one group, for the C4 witness. -/
def membershipSampleStore : Store :=
  { waypoints :=
      [⟨"w1", [1, 2, 3], [0, 0, 0], "point_of_interest", "A", [], "t0"⟩]
    groups := [⟨"g1", "G1", "", "#4A90E2", none, "t0"⟩]
    memberships := [] }

/-- C4 witness: adding and removing over one existing and one missing group
id is a non-error success with a count bounded by the request size. -/
theorem membership_ops_partial_success_witness :
    membershipSampleStore.hasWaypoint "w1" = true
    ∧ ((∃ s' k, membershipSampleStore.addWaypointToGroupsOp "w1" ["g1", "gx"]
          = .ok (s', k) ∧ k ≤ ["g1", "gx"].length)
      ∧ (∃ s' k, membershipSampleStore.removeWaypointFromGroupsOp "w1"
          ["g1", "gx"] = .ok (s', k) ∧ k ≤ ["g1", "gx"].length)) :=
  ⟨by decide,
   membership_ops_partial_success membershipSampleStore "w1" ["g1", "gx"]
     (by decide)⟩

/-- C5: the selective-visibility handler rejects an empty id list locally
(no request, so no visibility change); the modelled controller fails
`ValidationError` on the empty list and, on a non-empty list, switches to
selective mode with exactly the given ids visible and every other id hidden. -/
theorem set_selective_markers_spec :
    (∀ (args : SelectiveArgs) (http : HttpOutcome),
      args.visible_waypoint_ids.getD [] = [] →
        setSelectiveMarkersVisible args http
          = .noRequest "❌ Error: at least one waypoint ID must be provided")
    ∧ (∀ v : Visibility, v.setSelective [] = .error .validationError)
    ∧ (∀ (v : Visibility) (ids : List String), ids ≠ [] →
        ∃ v', v.setSelective ids = .ok v'
          ∧ v'.mode = .selective ids
          ∧ ∀ id, v'.isVisible id = ids.contains id) := by
  refine ⟨?_, ?_, ?_⟩
  · intro args http h
    simp [setSelectiveMarkersVisible, h]
  · intro v; rfl
  · intro v ids h
    cases ids with
    | nil => exact absurd rfl h
    | cons a l =>
      exact ⟨⟨.selective (a :: l), []⟩, rfl, rfl, fun _ => rfl⟩

/-- C5 witness: the empty list is rejected by the handler and the modelled
controller; `set_selective(["w1"])` makes exactly `"w1"` visible. -/
theorem set_selective_markers_spec_witness :
    setSelectiveMarkersVisible ⟨some []⟩ (.result { success := true })
      = .noRequest "❌ Error: at least one waypoint ID must be provided"
    ∧ Visibility.setSelective ⟨.allVisible, []⟩ [] = .error .validationError
    ∧ ∃ v', Visibility.setSelective ⟨.allVisible, []⟩ ["w1"] = .ok v'
        ∧ v'.mode = .selective ["w1"]
        ∧ ∀ id, v'.isVisible id = ["w1"].contains id :=
  ⟨set_selective_markers_spec.1 ⟨some []⟩ (.result { success := true }) rfl,
   set_selective_markers_spec.2.1 ⟨.allVisible, []⟩,
   set_selective_markers_spec.2.2 ⟨.allVisible, []⟩ ["w1"] (by decide)⟩

/-- C6: when the optional `target` is not supplied to the create-waypoint
tool, the create request is issued with `target = [0.0, 0.0, 0.0]`. -/
theorem create_waypoint_target_defaults_to_zero
    (inp : CreateWaypointToolInput) (http : HttpOutcome)
    (h : inp.target = none) :
    ∃ reply, createWaypoint (worldsurveyorCreateWaypointArgs inp) http
        = .requested (worldsurveyorCreateWaypointArgs inp) reply
      ∧ (worldsurveyorCreateWaypointArgs inp).target = some [0, 0, 0] := by
  obtain ⟨reply, hr⟩ :=
    createWaypoint_requested (worldsurveyorCreateWaypointArgs inp) http
  exact ⟨reply, hr, by simp [worldsurveyorCreateWaypointArgs, h]⟩

/-- C6 witness: a concrete call with `target` omitted posts the zero vector. -/
theorem create_waypoint_target_defaults_to_zero_witness :
    ∃ reply,
      createWaypoint (worldsurveyorCreateWaypointArgs
          ⟨[1, 2, 3], some "camera_position", none, none, none⟩) (.exn "x")
        = .requested (worldsurveyorCreateWaypointArgs
            ⟨[1, 2, 3], some "camera_position", none, none, none⟩) reply
      ∧ (worldsurveyorCreateWaypointArgs
          ⟨[1, 2, 3], some "camera_position", none, none, none⟩).target
        = some [0, 0, 0] :=
  create_waypoint_target_defaults_to_zero
    ⟨[1, 2, 3], some "camera_position", none, none, none⟩ (.exn "x") rfl

/-- C7: a missing or empty group name is rejected by `_create_group` before
any request is issued (so no group is created), and the modelled Group Tree
`create` fails `ValidationError` on the empty required name. -/
theorem create_group_requires_nonempty_name :
    (∀ (args : CreateGroupArgs) (http : HttpOutcome),
      (args.name = none ∨ args.name = some "") →
        createGroup args http = .noRequest "❌ Error: Group name is required")
    ∧ (∀ (s : Store) (gid description color : String)
        (parent : Option String) (t : String),
        s.createGroupOp gid "" description color parent t
          = .error .validationError) := by
  constructor
  · intro args http h
    have hempty : pyTruthyStr (some "") = false := by decide
    have hnone : pyTruthyStr none = false := rfl
    rcases h with h | h <;> simp [createGroup, h, hempty, hnone]
  · intro s gid description color parent t
    rfl

/-- C7 witness: the empty name is rejected by the handler and by the modelled
store operation. -/
theorem create_group_requires_nonempty_name_witness :
    createGroup ⟨some "", none, none, none⟩ (.result { success := true })
      = .noRequest "❌ Error: Group name is required"
    ∧ Store.createGroupOp Store.empty "g1" "" "" "#4A90E2" none "t0"
      = .error .validationError :=
  ⟨create_group_requires_nonempty_name.1 ⟨some "", none, none, none⟩
      (.result { success := true }) (Or.inr rfl),
   create_group_requires_nonempty_name.2 Store.empty "g1" "" "#4A90E2"
      none "t0"⟩

/-- C8: `_import_waypoints` with import data supplied and `merge_mode`
omitted issues the import request with merge mode `replace`. -/
theorem import_merge_mode_defaults_to_replace
    (d : ExportDocument) (http : HttpOutcome) :
    ∃ reply, importWaypoints ⟨some d, none⟩ http
      = .requested ⟨d, "replace"⟩ reply :=
  ⟨_, rfl⟩

/-- C9: when `waypoint_type` is not supplied to the create-waypoint tool, the
create request is issued with type `point_of_interest`. -/
theorem create_waypoint_type_defaults_to_point_of_interest
    (inp : CreateWaypointToolInput) (http : HttpOutcome)
    (h : inp.waypoint_type = none) :
    ∃ reply, createWaypoint (worldsurveyorCreateWaypointArgs inp) http
        = .requested (worldsurveyorCreateWaypointArgs inp) reply
      ∧ (worldsurveyorCreateWaypointArgs inp).waypoint_type
        = some "point_of_interest" := by
  obtain ⟨reply, hr⟩ :=
    createWaypoint_requested (worldsurveyorCreateWaypointArgs inp) http
  exact ⟨reply, hr, by simp [worldsurveyorCreateWaypointArgs, h]⟩

/-- C9 witness: a concrete call with `waypoint_type` omitted posts
`point_of_interest`. -/
theorem create_waypoint_type_defaults_witness :
    ∃ reply,
      createWaypoint (worldsurveyorCreateWaypointArgs
          ⟨[1, 2, 3], none, none, some [4, 5, 6], none⟩) (.exn "x")
        = .requested (worldsurveyorCreateWaypointArgs
            ⟨[1, 2, 3], none, none, some [4, 5, 6], none⟩) reply
      ∧ (worldsurveyorCreateWaypointArgs
          ⟨[1, 2, 3], none, none, some [4, 5, 6], none⟩).waypoint_type
        = some "point_of_interest" :=
  create_waypoint_type_defaults_to_point_of_interest
    ⟨[1, 2, 3], none, none, some [4, 5, 6], none⟩ (.exn "x") rfl

/-- C10: with a missing (falsy) `waypoint_id` or an empty `group_ids` list,
both membership handlers reply with the corresponding error before issuing
any request, so no membership edge is touched. -/
theorem membership_handlers_guard_before_request
    (args : MembershipArgs) (http : HttpOutcome)
    (h : pyTruthyStr args.waypoint_id = false
      ∨ args.group_ids.getD [] = []) :
    addWaypointToGroups args http
      = .noRequest (if pyTruthyStr args.waypoint_id = false
          then "❌ Error: Waypoint ID is required"
          else "❌ Error: At least one group ID is required")
    ∧ removeWaypointFromGroups args http
      = .noRequest (if pyTruthyStr args.waypoint_id = false
          then "❌ Error: Waypoint ID is required"
          else "❌ Error: At least one group ID is required") := by
  by_cases hw : pyTruthyStr args.waypoint_id = false
  · constructor <;> simp [addWaypointToGroups, removeWaypointFromGroups, hw]
  · have hw' : pyTruthyStr args.waypoint_id = true := by
      cases hb : pyTruthyStr args.waypoint_id
      · exact absurd hb hw
      · rfl
    have hg : args.group_ids.getD [] = [] := by
      rcases h with h | h
      · exact absurd h hw
      · exact h
    constructor <;>
      simp [addWaypointToGroups, removeWaypointFromGroups, hw', hg]

/-- C10 witness: a missing waypoint id is rejected by both handlers with no
request issued. -/
theorem membership_handlers_guard_before_request_witness :
    addWaypointToGroups ⟨none, some ["g1"]⟩ (.result { success := true })
      = .noRequest "❌ Error: Waypoint ID is required"
    ∧ removeWaypointFromGroups ⟨none, some ["g1"]⟩
        (.result { success := true })
      = .noRequest "❌ Error: Waypoint ID is required" := by
  have := membership_handlers_guard_before_request ⟨none, some ["g1"]⟩
    (.result { success := true }) (Or.inl rfl)
  simpa using this

end AgentAdventures
